import Mathlib

/-!
Formal model of the `emulated_roku` library.

The definitions below are a shallow embedding of the code in
`src/emulated_roku/__init__.py` (the SSDP discovery responder
`RokuDiscoveryServerProtocol` and the HTTP control API built by
`make_roku_api`).  Parts of the repository that the tests and example
scripts exercise but that are not present under `src/` (the host/remote
validation middleware, the `build_custom_apps` catalog builder and the
discovery protocol's `close()` method) are modelled from the
specification; each such definition carries a doc comment starting with
`Modelled from the spec:`.

Strings are modelled by Lean `String`/`List Char`; Python byte strings
by `List Nat` (one `Nat` per byte); fallible operations by `Option` or
an explicit outcome type.  All definitions are executable.
-/

namespace EmulatedRoku

/-! ## Constants of `RokuDiscoveryServerProtocol` (source lines 102-106) -/

/-- Source: `MUTLICAST_TTL = 300` (the typo is the source's). -/
def MUTLICAST_TTL : Nat := 300

/-- Source: `SSDP_MAX_DELAY = 5`. -/
def SSDP_MAX_DELAY : Nat := 5

/-- Source: `MULTICAST_GROUP = "239.255.255.250"`. -/
def MULTICAST_GROUP : String := "239.255.255.250"

/-- Source: `MULTICAST_PORT = 1900`. -/
def MULTICAST_PORT : Nat := 1900

/-- Source: `MULTICAST_SEARCH_MSG = "M-SEARCH * HTTP/1.1"`. -/
def MULTICAST_SEARCH_MSG : String := "M-SEARCH * HTTP/1.1"

/-! ## Python string primitives

`str.find`, indexing, `in`, `startswith` and single-character `int()`
are modelled over `List Char`. -/

/-- Computes `findSubAux pat s i`: the index of the first occurrence of `pat` in
`s`, offset by `i`; `none` if there is none.  Models Python `str.find`
(which returns `-1` for "not found"; we use `Option`). -/
def findSubAux (pat : List Char) : List Char → Nat → Option Nat
  | [], i => if pat.isEmpty then some i else none
  | c :: rest, i =>
    if pat.isPrefixOf (c :: rest) then some i else findSubAux pat rest (i + 1)

/-- First index of `pat` in `s`, as Python `s.find(pat)`. -/
def findSub (s pat : List Char) : Option Nat :=
  findSubAux pat s 0

/-- Python `pat in s`. -/
def containsSub (s pat : List Char) : Bool :=
  (findSub s pat).isSome

/-- Python `int(c)` on a one-character string: succeeds exactly on a
decimal digit (otherwise `ValueError`). -/
def pyIntOfChar (c : Char) : Option Nat :=
  if c.isDigit then some (c.toNat - 48) else none

/-! ## `datagram_received` (source lines 208-225)

The outcome of processing one datagram.  `scheduled b` means a
`multicast_reply` task was created whose delay was drawn by
`random.randrange(0, b + 1, 1)`, i.e. uniformly from the inclusive
integer range `[0, b]`.  `raised` means the handler raised an
uncaught exception (`IndexError`/`ValueError` from `int(data[i+4])`). -/
inductive DatagramOutcome where
  | ignored : DatagramOutcome
  | scheduled : Nat → DatagramOutcome
  | raised : DatagramOutcome
deriving DecidableEq, Repr

/-- The guard of `datagram_received`: the datagram starts with the
search verb and declares a matching search target (source lines
212-213). -/
def isMatchingQuery (data : String) : Bool :=
  MULTICAST_SEARCH_MSG.data.isPrefixOf data.data &&
    (containsSub data.data "ST: ssdp:all".data ||
     containsSub data.data "ST: roku:ecp".data)

/-- Shallow embedding of `RokuDiscoveryServerProtocol.datagram_received`
(source lines 208-225): for a matching query, `mx_value = data.find("MX:")`;
if found, `mx_delay = int(data[mx_value + 4]) % (SSDP_MAX_DELAY + 1)` and
the reply delay is drawn from `[0, mx_delay]`; otherwise the delay is
drawn from `[0, SSDP_MAX_DELAY]`.  `int` on a non-digit character (or an
out-of-range index) raises. -/
def datagramReceived (data : String) : DatagramOutcome :=
  if isMatchingQuery data then
    match findSub data.data "MX:".data with
    | some i =>
      match data.data[i + 4]? with
      | none => .raised
      | some c =>
        match pyIntOfChar c with
        | none => .raised
        | some d => .scheduled (d % (SSDP_MAX_DELAY + 1))
    | none => .scheduled SSDP_MAX_DELAY
  else
    .ignored

/-! ## The value of a well-formed `MX` header

The claims speak of a query "carrying an MX header whose value `k` is a
valid non-negative integer".  We read that value off the datagram the
same way the source locates the header: at the first occurrence of
`"MX:"`, followed by one space and a run of decimal digits (the `MX`
header format of the SSDP queries shown in the spec and the tests). -/

/-- Parse a leading run of decimal digits; `none` if the list does not
start with a digit. -/
def parseDigitRun (l : List Char) : Option Nat :=
  match l.takeWhile (fun c => c.isDigit) with
  | [] => none
  | run => some (run.foldl (fun acc c => acc * 10 + (c.toNat - 48)) 0)

/-- The integer value of the datagram's `MX` header (located, like the
source does, at the first occurrence of `"MX:"`), provided the header is
well-formed: `"MX: "` followed by at least one decimal digit. -/
def mxHeaderValue (data : String) : Option Nat :=
  match findSub data.data "MX:".data with
  | none => none
  | some i =>
    if data.data[i + 3]? = some ' ' then parseDigitRun (data.data.drop (i + 4))
    else none

/-! ## The NOTIFY self-announcement schedule (source lines 152-195)

`connection_made` creates `multicast_notify(MUTLICAST_TTL)` (lines
167-168).  `multicast_notify(delay)` sleeps `delay` seconds, sends the
NOTIFY broadcast, and re-creates itself with delay `MUTLICAST_TTL`
(lines 184-195).  Hence, with the transport staying open and the
connection made at time `t0`, the `n`-th NOTIFY send happens at
`t0 + (n + 1) * MUTLICAST_TTL`. -/

/-- The delay (seconds) between entering the listening state and the
first NOTIFY send: `connection_made` passes `MUTLICAST_TTL` to
`multicast_notify`, which sleeps for that long before its first send. -/
def notifyFirstSendDelay : Nat := MUTLICAST_TTL

/-- Time of the `n`-th NOTIFY send for a connection made at time `t0`
(transport open throughout). -/
def notifySendTime (t0 : Nat) : Nat → Nat
  | 0 => t0 + MUTLICAST_TTL
  | n + 1 => notifySendTime t0 n + MUTLICAST_TTL

/-! ## Protocol state, construction, reply and announcement firing -/

/-- The response template `MULTICAST_RESPONSE` (source lines 108-112),
with `format` applied (placeholders `ttl`, `host_ip`, `port`, `usn`). -/
def multicastResponseFmt (ttl : Nat) (host_ip : String) (port : Nat)
    (usn : String) : String :=
  "HTTP/1.1 200 OK\n" ++
  "Cache-Control: max-age = " ++ toString ttl ++ "\n" ++
  "ST: roku:ecp\n" ++
  "Location: http://" ++ host_ip ++ ":" ++ toString port ++ "/\n" ++
  "USN: uuid:roku:ecp:" ++ usn ++ "\n"

/-- The announcement template `MULTICAST_NOTIFY` (source lines 114-120),
with `format` applied. -/
def multicastNotifyFmt (ttl : Nat) (host_ip : String) (port : Nat)
    (multicast_ip : String) (multicast_port : Nat) (usn : String) : String :=
  "NOTIFY * HTTP/1.1\n" ++
  "HOST: " ++ multicast_ip ++ ":" ++ toString multicast_port ++ "\n" ++
  "Cache-Control: max-age = " ++ toString ttl ++ "\n" ++
  "NT: upnp:rootdevice\n" ++
  "NTS: ssdp:alive\n" ++
  "Location: http://" ++ host_ip ++ ":" ++ toString port ++ "/\n" ++
  "USN: uuid:roku:ecp:" ++ usn ++ "\n"

/-- State of a `RokuDiscoveryServerProtocol` instance.  `transport` is
`none` when no transport is attached (or the reference was cleared) and
`some closing` when one is attached, with `closing` mirroring
`transport.is_closing()`.  `notify_task` is `none` when no notify task
reference is held. -/
structure DiscoveryProtoState where
  host_ip : String
  listen_port : Nat
  roku_usn : String
  upnp_response : String
  notify_broadcast : String
  transport : Option Bool
  notify_task : Option Bool
deriving DecidableEq, Repr

/-- Embedding of `RokuDiscoveryServerProtocol.__init__` (source lines 128-150): the
reply payload `upnp_response` and the announcement payload
`notify_broadcast` are rendered once, at construction time, from
`advertise_ip`, `advertise_port`, `roku_usn` and the fixed TTL. -/
def protocolInit (host_ip : String) (listen_port : Nat)
    (advertise_ip : String) (advertise_port : Nat)
    (roku_usn : String) : DiscoveryProtoState :=
  { host_ip := host_ip
    listen_port := listen_port
    roku_usn := roku_usn
    upnp_response :=
      multicastResponseFmt MUTLICAST_TTL advertise_ip advertise_port roku_usn
    notify_broadcast :=
      multicastNotifyFmt MUTLICAST_TTL advertise_ip advertise_port
        MULTICAST_GROUP MULTICAST_PORT roku_usn
    transport := none
    notify_task := none }

/-- The send performed when a scheduled `multicast_reply` task fires
(source lines 197-206, after the `asyncio.sleep`): if the transport is
gone or closing, nothing is sent; otherwise `upnp_response` is sent to
`addr`.  The `data` argument of the task is never used in the send. -/
def multicastReplyFire (st : DiscoveryProtoState) (data : String)
    (addr : String × Nat) : Option (String × (String × Nat)) :=
  match st.transport with
  | none => none
  | some closing => if closing then none else some (st.upnp_response, addr)

/-- The send performed when a scheduled `multicast_notify` task fires
(source lines 181-192, after the `asyncio.sleep`): if the transport is
gone or closing, nothing is sent; otherwise `notify_broadcast` is sent
to the multicast group. -/
def multicastNotifyFire (st : DiscoveryProtoState) :
    Option (String × (String × Nat)) :=
  match st.transport with
  | none => none
  | some closing =>
    if closing then none
    else some (st.notify_broadcast, (MULTICAST_GROUP, MULTICAST_PORT))

/-- Modelled from the spec: the discovery responder's `close()` method
is absent from `src/emulated_roku/__init__.py` (the repository's tests
call it); spec section 4.1 describes it: "cancel the periodic
self-announcement unit of work (idempotent — no error if already
finished/never started), close the transport, clear internal references
so a second `close()` is a no-op". -/
def closeProto (st : DiscoveryProtoState) : DiscoveryProtoState :=
  { st with transport := none, notify_task := none }

/-! ## Device identity (source lines 285-289)

`make_roku_api` derives `roku_uuid = uuid.uuid5(uuid.NAMESPACE_OID,
"{advertise_ip}:{advertise_port}")` and `roku_usn =
shortuuid.ShortUUID().uuid(name="{advertise_ip}{advertise_port}")`.
Both are deterministic digests of their name string; we embed them
concretely: SHA-1, the RFC 4122 version-5 UUID construction, and the
`shortuuid` base-57 encoding. -/

/-- Truncate to 32 bits. -/
def m32 (x : Nat) : Nat := x % 4294967296

/-- 32-bit left rotation. -/
def rotl32 (n x : Nat) : Nat :=
  m32 ((x <<< n) ||| (x >>> (32 - n)))

/-- Big-endian 8-byte encoding of a 64-bit length. -/
def be64 (n : Nat) : List Nat :=
  [(n >>> 56) % 256, (n >>> 48) % 256, (n >>> 40) % 256, (n >>> 32) % 256,
   (n >>> 24) % 256, (n >>> 16) % 256, (n >>> 8) % 256, n % 256]

/-- SHA-1 padding: append `0x80`, zero bytes to 56 mod 64, then the
bit length as a big-endian 64-bit integer. -/
def sha1Pad (msg : List Nat) : List Nat :=
  msg ++ [128] ++ List.replicate ((119 - msg.length % 64) % 64) 0 ++
    be64 (msg.length * 8)

/-- Group bytes into big-endian 32-bit words (length assumed to be a
multiple of 4, as after padding). -/
def bytesToWords : List Nat → List Nat
  | b0 :: b1 :: b2 :: b3 :: rest =>
    (b0 * 16777216 + b1 * 65536 + b2 * 256 + b3) :: bytesToWords rest
  | _ => []

/-- Extend a 16-word block by `n` schedule words
(`w[i] = rotl1 (w[i-3] xor w[i-8] xor w[i-14] xor w[i-16])`). -/
def sha1Extend (ws : List Nat) : Nat → List Nat
  | 0 => ws
  | n + 1 =>
    sha1Extend
      (ws ++ [rotl32 1 ((ws.getD (ws.length - 3) 0) ^^^
                        (ws.getD (ws.length - 8) 0) ^^^
                        (ws.getD (ws.length - 14) 0) ^^^
                        (ws.getD (ws.length - 16) 0))]) n

/-- SHA-1 round function. -/
def sha1F (t b c d : Nat) : Nat :=
  if t < 20 then (b &&& c) ||| ((4294967295 - m32 b) &&& d)
  else if t < 40 then b ^^^ c ^^^ d
  else if t < 60 then (b &&& c) ||| (b &&& d) ||| (c &&& d)
  else b ^^^ c ^^^ d

/-- SHA-1 round constants. -/
def sha1K (t : Nat) : Nat :=
  if t < 20 then 0x5A827999
  else if t < 40 then 0x6ED9EBA1
  else if t < 60 then 0x8F1BBCDC
  else 0xCA62C1D6

/-- One SHA-1 round on the five-word state. -/
def sha1Round (w : List Nat) (st : Nat × Nat × Nat × Nat × Nat) (t : Nat) :
    Nat × Nat × Nat × Nat × Nat :=
  let (a, b, c, d, e) := st
  (m32 (rotl32 5 a + sha1F t b c d + e + sha1K t + w.getD t 0),
   a, rotl32 30 b, c, d)

/-- Compress one 16-word block into the chaining state. -/
def sha1Compress (h : Nat × Nat × Nat × Nat × Nat) (block : List Nat) :
    Nat × Nat × Nat × Nat × Nat :=
  let w := sha1Extend block 64
  let (a, b, c, d, e) := (List.range 80).foldl (sha1Round w) h
  let (h0, h1, h2, h3, h4) := h
  (m32 (h0 + a), m32 (h1 + b), m32 (h2 + c), m32 (h3 + d), m32 (h4 + e))

/-- Process the padded word stream 16 words at a time (`fuel` bounds the
number of blocks; it is instantiated with the word-list length, which is
always sufficient). -/
def sha1ProcessW (h : Nat × Nat × Nat × Nat × Nat) :
    Nat → List Nat → Nat × Nat × Nat × Nat × Nat
  | 0, _ => h
  | _, [] => h
  | fuel + 1, ws => sha1ProcessW (sha1Compress h (ws.take 16)) fuel (ws.drop 16)

/-- Big-endian bytes of a 32-bit word. -/
def wordBytes (w : Nat) : List Nat :=
  [(w >>> 24) % 256, (w >>> 16) % 256, (w >>> 8) % 256, w % 256]

/-- SHA-1 digest (20 bytes) of a byte string. -/
def sha1 (msg : List Nat) : List Nat :=
  let ws := bytesToWords (sha1Pad msg)
  let (h0, h1, h2, h3, h4) :=
    sha1ProcessW (0x67452301, 0xEFCDAB89, 0x98BADCFE, 0x10325476, 0xC3D2E1F0)
      ws.length ws
  wordBytes h0 ++ wordBytes h1 ++ wordBytes h2 ++ wordBytes h3 ++ wordBytes h4

/-- Bytes of `uuid.NAMESPACE_OID` (6ba7b812-9dad-11d1-80b4-00c04fd430c8). -/
def NAMESPACE_OID_BYTES : List Nat :=
  [0x6b, 0xa7, 0xb8, 0x12, 0x9d, 0xad, 0x11, 0xd1,
   0x80, 0xb4, 0x00, 0xc0, 0x4f, 0xd4, 0x30, 0xc8]

/-- Bytes of `uuid.NAMESPACE_DNS` (6ba7b810-9dad-11d1-80b4-00c04fd430c8). -/
def NAMESPACE_DNS_BYTES : List Nat :=
  [0x6b, 0xa7, 0xb8, 0x10, 0x9d, 0xad, 0x11, 0xd1,
   0x80, 0xb4, 0x00, 0xc0, 0x4f, 0xd4, 0x30, 0xc8]

/-- Bytes of a name string.  The names used here
(`"{ip}:{port}"`, `"{ip}{port}"`) are ASCII, where `Char.toNat`
coincides with the UTF-8 encoding Python applies. -/
def strBytes (s : String) : List Nat := s.data.map Char.toNat

/-- RFC 4122 version-5 UUID bytes: SHA-1 of namespace plus name,
truncated to 16 bytes, with the version and variant bits set — the
computation performed by `uuid.uuid5`. -/
def uuid5Bytes (ns : List Nat) (name : String) : List Nat :=
  let d := (sha1 (ns ++ strBytes name)).take 16
  (d.set 6 ((d.getD 6 0 &&& 0x0F) ||| 0x50)).set 8
    ((d.getD 8 0 &&& 0x3F) ||| 0x80)

/-- Lowercase hexadecimal digit. -/
def hexChar (n : Nat) : Char :=
  if n < 10 then Char.ofNat (48 + n) else Char.ofNat (87 + n)

/-- Two hex digits of a byte. -/
def byteHex (b : Nat) : List Char := [hexChar (b / 16), hexChar (b % 16)]

/-- Hex of a list of bytes. -/
def bytesHex (bs : List Nat) : List Char := (bs.map byteHex).flatten

/-- The canonical 8-4-4-4-12 string of a version-5 UUID, as
`str(uuid.uuid5(ns, name))` produces. -/
def uuid5Str (ns : List Nat) (name : String) : String :=
  let bs := uuid5Bytes ns name
  ⟨bytesHex (bs.take 4) ++ '-' :: bytesHex ((bs.drop 4).take 2) ++
   '-' :: bytesHex ((bs.drop 6).take 2) ++
   '-' :: bytesHex ((bs.drop 8).take 2) ++ '-' :: bytesHex (bs.drop 10)⟩

/-- The `shortuuid` alphabet (57 unambiguous alphanumeric characters). -/
def SHORTUUID_ALPHABET : List Char :=
  "23456789ABCDEFGHJKLMNPQRSTUVWXYZabcdefghijkmnopqrstuvwxyz".data

/-- Big-endian integer value of a byte string (the UUID's 128-bit
integer). -/
def bytesToNat (bs : List Nat) : Nat :=
  bs.foldl (fun acc b => acc * 256 + b) 0

/-- Base-57 digits of `n`, least significant first (`fuel` bounds the
digit count; 128 is ample for a 128-bit value). -/
def toBase57 : Nat → Nat → List Char
  | 0, _ => []
  | fuel + 1, n =>
    if n = 0 then []
    else SHORTUUID_ALPHABET.getD (n % 57) '2' :: toBase57 fuel (n / 57)

/-- The `shortuuid` encoding of a 128-bit integer: base-57 digits, padded to
22 characters, most significant first. -/
def shortuuidEncode (n : Nat) : String :=
  let ds := toBase57 128 n
  ⟨(ds ++ List.replicate (22 - ds.length) '2').reverse⟩

/-- Models `shortuuid.ShortUUID().uuid(name=...)` for a name not starting with
`http` (the names here are `"{ip}{port}"`): the version-5 UUID of the
name in `uuid.NAMESPACE_DNS`, base-57 encoded. -/
def shortuuidOfName (name : String) : String :=
  shortuuidEncode (bytesToNat (uuid5Bytes NAMESPACE_DNS_BYTES name))

/-- The `roku_uuid` of `make_roku_api` (source lines 285-286):
`str(uuid.uuid5(uuid.NAMESPACE_OID, "{}:{}".format(advertise_ip,
advertise_port)))`. -/
def roku_uuid_of (advertise_ip : String) (advertise_port : Nat) : String :=
  uuid5Str NAMESPACE_OID_BYTES (advertise_ip ++ ":" ++ toString advertise_port)

/-- The `roku_usn` of `make_roku_api` (source lines 288-289):
`USN_GENERATOR.uuid(name="{}{}".format(advertise_ip, advertise_port))`. -/
def roku_usn_of (advertise_ip : String) (advertise_port : Nat) : String :=
  shortuuidOfName (advertise_ip ++ toString advertise_port)

/-- The identity-relevant arguments of `make_roku_api` (source lines
277-280); `advertise_ip`/`advertise_port` are optional and default to
`host_ip`/`listen_port` (Python `advertise_ip or host_ip`, modelled with
`Option`). -/
structure MakeRokuApiArgs where
  host_ip : String
  listen_port : Nat
  advertise_ip : Option String
  advertise_port : Option Nat
deriving DecidableEq, Repr

/-- The resolved advertise pair (source lines 282-283). -/
def resolveAdvertise (a : MakeRokuApiArgs) : String × Nat :=
  (a.advertise_ip.getD a.host_ip, a.advertise_port.getD a.listen_port)

/-- The `(usn, device_uuid)` pair derived by `make_roku_api` (source
lines 282-289).  The derivation reads nothing but the resolved
advertise pair: no randomness, clock or persisted state enters (the
source calls only `uuid.uuid5` and a named `shortuuid` derivation, both
deterministic digests). -/
def deriveIdentity (a : MakeRokuApiArgs) : String × String :=
  (roku_usn_of (resolveAdvertise a).1 (resolveAdvertise a).2,
   roku_uuid_of (resolveAdvertise a).1 (resolveAdvertise a).2)

/-! ## Discovery bind target (source lines 356-365)

`make_roku_api` chooses the local address for
`loop.create_datagram_endpoint`: the multicast group when
`bind_multicast` is requested and the platform is not Windows
(`os.name != "nt"`), the host address otherwise; always on
`MULTICAST_PORT`. -/

/-- The IP the discovery socket is bound to (source lines 356-360). -/
def chooseMulticastBindIp (bind_multicast : Bool) (osName : String)
    (host_ip : String) : String :=
  if bind_multicast && !(osName == "nt") then MULTICAST_GROUP else host_ip

/-- The `local_addr` passed to `create_datagram_endpoint` (source lines
362-365). -/
def discoveryLocalAddr (bind_multicast : Bool) (osName : String)
    (host_ip : String) : String × Nat :=
  (chooseMulticastBindIp bind_multicast osName host_ip, MULTICAST_PORT)

/-! ## Generic splitting (used by the spec-modelled parsers) -/

/-- Split a character list at every separator satisfying `p`
(separators are dropped; empty pieces are kept). -/
def splitChars (p : Char → Bool) : List Char → List (List Char)
  | [] => [[]]
  | c :: cs =>
    let r := splitChars p cs
    if p c then [] :: r
    else
      match r with
      | [] => [[c]]
      | g :: gs => (c :: g) :: gs

/-- Decimal value of a non-empty all-digit character list. -/
def decOfChars (l : List Char) : Option Nat :=
  if l.isEmpty then none
  else if l.all (fun c => c.isDigit) then
    some (l.foldl (fun acc c => acc * 10 + (c.toNat - 48)) 0)
  else none

/-! ## Host/remote validation middleware

Absent from `src/emulated_roku/__init__.py`; the repository's tests
exercise it as `EmulatedRokuServer._check_remote_and_host_ip`. -/

/-- Parse a dotted-quad IPv4 address. -/
def parseIPv4 (s : String) : Option (Nat × Nat × Nat × Nat) :=
  match splitChars (fun c => c == '.') s.data with
  | [a, b, c, d] =>
    match decOfChars a, decOfChars b, decOfChars c, decOfChars d with
    | some x, some y, some z, some w =>
      if x ≤ 255 && y ≤ 255 && z ≤ 255 && w ≤ 255 then some (x, y, z, w)
      else none
    | _, _, _, _ => none
  | _ => none

/-- Modelled from the spec: the request-origin check of the validation
middleware, which is not under `src/` (only its tests are).  Spec
section 4.2: accept only an origin that "is a loopback or
private-network address" — loopback 127.0.0.0/8 and the private ranges
10.0.0.0/8, 172.16.0.0/12, 192.168.0.0/16. -/
def isLocalRemote (remote : String) : Bool :=
  match parseIPv4 remote with
  | none => false
  | some (a, b, _, _) =>
    a == 127 || a == 10 || (a == 172 && 16 ≤ b && b ≤ 31) ||
      (a == 192 && b == 168)

/-- Modelled from the spec: the Host-header check of the validation
middleware, which is not under `src/` (only its tests are).  Spec
section 4.2: accept only a "Host header [that] equals the configured
host address, optionally followed by `:<listen_port>`". -/
def hostHeaderOk (host_ip : String) (listen_port : Nat)
    (hostHeader : String) : Bool :=
  hostHeader == host_ip ||
    hostHeader == host_ip ++ ":" ++ toString listen_port

/-! ## Custom apps catalog builder

`build_custom_apps` is absent from `src/emulated_roku/__init__.py`
(only the repository's tests call it). -/

/-- Modelled from the spec: split a `custom_apps` string into raw
entries.  Spec section 4.4: "one string holding comma- or
newline-separated `id:name` entries". -/
def splitAppEntries (s : String) : List String :=
  (splitChars (fun c => c == ',' || c == '\n') s.data).map (fun l => ⟨l⟩)

/-- Modelled from the spec: split one entry at its first separator.
Spec section 4.4: "split on the first separator character; an entry
lacking the separator is invalid and is skipped". -/
def splitAppEntry (e : String) : Option (String × String) :=
  match e.data.dropWhile (fun c => c != ':') with
  | [] => none
  | _ :: rest => some (⟨e.data.takeWhile (fun c => c != ':')⟩, ⟨rest⟩)

/-- Modelled from the spec: the ordered list of valid `(id, name)`
entries of a `custom_apps` string; invalid entries are dropped and
parsing continues (spec sections 4.4 and 7). -/
def parseCustomAppList (s : String) : List (String × String) :=
  (splitAppEntries s).filterMap splitAppEntry

/-- Modelled from the spec: one rendered catalog line; the version is a
"fixed placeholder" (spec section 3). -/
def renderAppLine (p : String × String) : String :=
  ("<app id=\"" ++ p.1 ++ "\" version=\"1.0.0\">") ++ (p.2 ++ "</app>\n")

/-- Rendered catalog lines, in list order. -/
def renderAppsBody : List (String × String) → String
  | [] => ""
  | p :: rest => renderAppLine p ++ renderAppsBody rest

/-- Modelled from the spec: the full rendered apps document. -/
def renderApps (l : List (String × String)) : String :=
  "<apps>\n" ++ (renderAppsBody l ++ "</apps>")

/-- Modelled from the spec: `build_custom_apps` — "An input that is
empty, absent, or yields zero valid entries is reported as 'use
default', never as an error" (spec section 4.4), modelled as `none`;
otherwise the rendered catalog of the valid entries in input order. -/
def build_custom_apps (s : String) : Option String :=
  if parseCustomAppList s = [] then none
  else some (renderApps (parseCustomAppList s))

/-! ## Fixed documents and templates of the control API
(source lines 17-96) -/

/-- Source `ROKU_INFO_TEMPLATE` (lines 17-44) with `format` applied. -/
def rokuInfoFmt (uuid usn : String) : String :=
  "<?xml version=\"1.0\" encoding=\"UTF-8\" ?>\n" ++
  "<root xmlns=\"urn:schemas-upnp-org:device-1-0\">\n" ++
  "    <specVersion>\n        <major>1</major>\n        <minor>0</minor>\n" ++
  "    </specVersion>\n    <device>\n" ++
  "    <deviceType>urn:roku-com:device:player:1-0</deviceType>\n" ++
  "    <friendlyName>Emulated Roku " ++ usn ++ "</friendlyName>\n" ++
  "    <manufacturer>Emulated Roku</manufacturer>\n" ++
  "    <manufacturerURL>http://www.roku.com/</manufacturerURL>\n" ++
  "    <modelDescription>Emulated Roku</modelDescription>\n" ++
  "    <modelName>Emulated Roku 4</modelName>\n" ++
  "    <modelNumber>4400x</modelNumber>\n" ++
  "    <modelURL>http://www.roku.com/</modelURL>\n" ++
  "    <serialNumber>" ++ usn ++ "</serialNumber>\n" ++
  "    <UDN>uuid:" ++ uuid ++ "</UDN>\n" ++
  "    <serviceList>\n        <service>\n" ++
  "            <serviceType>urn:roku-com:service:ecp:1</serviceType>\n" ++
  "            <serviceId>urn:roku-com:serviceId:ecp1-0</serviceId>\n" ++
  "            <controlURL/>\n            <eventSubURL/>\n" ++
  "            <SCPDURL>ecp_SCPD.xml</SCPDURL>\n" ++
  "        </service>\n    </serviceList>\n    </device>\n</root>"

/-- Source `ROKU_DEVICE_INFO_TEMPLATE` (lines 46-79) with `format`
applied (abridged faithfully: every line of the source document, in
order). -/
def rokuDeviceInfoFmt (uuid usn : String) : String :=
  "<device-info>\n" ++
  "    <udn>" ++ uuid ++ "</udn>\n" ++
  "    <serial-number>" ++ usn ++ "</serial-number>\n" ++
  "    <device-id>" ++ usn ++ "</device-id>\n" ++
  "    <vendor-name>Emulated Roku</vendor-name>\n" ++
  "    <model-number>4400X</model-number>\n" ++
  "    <model-name>Emulated Roku 4</model-name>\n" ++
  "    <model-region>US</model-region>\n" ++
  "    <supports-ethernet>true</supports-ethernet>\n" ++
  "    <wifi-mac>b0:a7:37:96:4d:fb</wifi-mac>\n" ++
  "    <ethernet-mac>b0:a7:37:96:4d:fa</ethernet-mac>\n" ++
  "    <network-type>ethernet</network-type>\n" ++
  "    <user-device-name>Emulated Roku " ++ usn ++ "</user-device-name>\n" ++
  "    <software-version>7.5.0</software-version>\n" ++
  "    <software-build>09021</software-build>\n" ++
  "    <secure-device>true</secure-device>\n" ++
  "    <language>en</language>\n    <country>US</country>\n" ++
  "    <locale>en_US</locale>\n    <time-zone>US/Pacific</time-zone>\n" ++
  "    <time-zone-offset>-480</time-zone-offset>\n" ++
  "    <power-mode>PowerOn</power-mode>\n" ++
  "    <supports-suspend>false</supports-suspend>\n" ++
  "    <supports-find-remote>false</supports-find-remote>\n" ++
  "    <supports-audio-guide>false</supports-audio-guide>\n" ++
  "    <developer-enabled>true</developer-enabled>\n" ++
  "    <keyed-developer-id>70f6ed9c90cf60718a26f3a7c3e5af1c3ec29558" ++
  "</keyed-developer-id>\n" ++
  "    <search-enabled>true</search-enabled>\n" ++
  "    <voice-search-enabled>true</voice-search-enabled>\n" ++
  "    <notifications-enabled>true</notifications-enabled>\n" ++
  "    <notifications-first-use>false</notifications-first-use>\n" ++
  "    <supports-private-listening>false</supports-private-listening>\n" ++
  "    <headphones-connected>false</headphones-connected>\n" ++
  "</device-info>"

/-- Source `APPS_TEMPLATE` (lines 81-92): the fixed default apps
catalog. -/
def APPS_TEMPLATE : String :=
  "<apps>\n" ++
  "    <app id=\"1\" version=\"1.0.0\">Emulated App 1</app>\n" ++
  "    <app id=\"2\" version=\"1.0.0\">Emulated App 2</app>\n" ++
  "    <app id=\"3\" version=\"1.0.0\">Emulated App 3</app>\n" ++
  "    <app id=\"4\" version=\"1.0.0\">Emulated App 4</app>\n" ++
  "    <app id=\"5\" version=\"1.0.0\">Emulated App 5</app>\n" ++
  "    <app id=\"6\" version=\"1.0.0\">Emulated App 6</app>\n" ++
  "    <app id=\"7\" version=\"1.0.0\">Emulated App 7</app>\n" ++
  "    <app id=\"8\" version=\"1.0.0\">Emulated App 8</app>\n" ++
  "    <app id=\"9\" version=\"1.0.0\">Emulated App 9</app>\n" ++
  "    <app id=\"10\" version=\"1.0.0\">Emulated App 10</app>\n" ++
  "</apps>"

/-- Source `ACTIVE_APP_TEMPLATE` (lines 94-96). -/
def ACTIVE_APP_TEMPLATE : String :=
  "<active-app>\n    <app>Roku</app>\n</active-app>"

/-! ## The control API server -/

/-- HTTP methods used by the route table. -/
inductive HttpMethod where
  | get : HttpMethod
  | post : HttpMethod
deriving DecidableEq, Repr

/-- An incoming control-API request: method, path segments, the Host
header, and the origin (remote peer) address. -/
structure HttpRequest where
  method : HttpMethod
  pathSegs : List String
  hostHeader : String
  remote : String
deriving DecidableEq, Repr

/-- The callback a command route forwards to its handler: the contract
each HTTP command route guarantees (`on_keydown`, `on_keyup`,
`on_keypress`, `launch` of `RokuCommandHandler`, source lines 260-274). -/
inductive CommandEvent where
  | keydown : String → String → CommandEvent
  | keyup : String → String → CommandEvent
  | keypress : String → String → CommandEvent
  | launch : String → String → CommandEvent
deriving DecidableEq, Repr

/-- An HTTP response: status, body, optional Content-Type header. -/
structure HttpResponse where
  status : Nat
  body : String
  contentType : Option String
deriving DecidableEq, Repr

/-- The server configuration and pre-rendered documents held by the
route closures of `make_roku_api`.  `custom_apps` is the optional
catalog specification of the spec's ServerConfig (section 3); it is
absent from the `src/` version, which always serves the default
catalog. -/
structure RokuApi where
  host_ip : String
  listen_port : Nat
  usn : String
  roku_info : String
  device_info : String
  custom_apps : Option String
deriving DecidableEq, Repr

/-- The apps document served by `roku_apps_handler`: the `src/` version
(source lines 328-331) always serves `APPS_TEMPLATE`; with the
spec-modelled `custom_apps` configured, the custom catalog when it has
valid entries, else the default (spec sections 4.2 and 4.4). -/
def appsBody (api : RokuApi) : String :=
  match api.custom_apps with
  | none => APPS_TEMPLATE
  | some s => (build_custom_apps s).getD APPS_TEMPLATE

/-- The outcome of one control-API request: which route handler ran (by
its source name), the handler callbacks it issued, and the response. -/
structure ApiResult where
  handlerRun : Option String
  events : List CommandEvent
  response : HttpResponse
deriving DecidableEq, Repr

/-- The route table of `make_roku_api` (source lines 369-381) together
with each handler's behaviour (source lines 295-350): command routes
forward their path segment to the handler callback and return an empty
200; query routes return their document.  `none` means no route
matches. -/
def dispatchRoute (api : RokuApi) (req : HttpRequest) :
    Option (String × List CommandEvent × HttpResponse) :=
  match req.method, req.pathSegs with
  | .get, [] =>
    some ("roku_root_handler", [], ⟨200, api.roku_info, some "text/xml"⟩)
  | .post, ["keydown", key] =>
    some ("roku_keydown_handler", [.keydown api.usn key], ⟨200, "", none⟩)
  | .post, ["keyup", key] =>
    some ("roku_keyup_handler", [.keyup api.usn key], ⟨200, "", none⟩)
  | .post, ["keypress", key] =>
    some ("roku_keypress_handler", [.keypress api.usn key], ⟨200, "", none⟩)
  | .post, ["launch", appId] =>
    some ("roku_launch_handler", [.launch api.usn appId], ⟨200, "", none⟩)
  | .post, ["input"] =>
    some ("roku_input_handler", [], ⟨200, "", none⟩)
  | .post, ["search"] =>
    some ("roku_search_handler", [], ⟨200, "", none⟩)
  | .get, ["query", "apps"] =>
    some ("roku_apps_handler", [], ⟨200, appsBody api, some "text/xml"⟩)
  | .get, ["query", "icon", _] =>
    some ("roku_app_icon_handler", [], ⟨200, "", some "image/png"⟩)
  | .get, ["query", "active-app"] =>
    some ("roku_active_app_handler", [], ⟨200, ACTIVE_APP_TEMPLATE, some "text/xml"⟩)
  | .get, ["query", "device-info"] =>
    some ("roku_info_handler", [], ⟨200, api.device_info, some "text/xml"⟩)
  | _, _ => none

/-- Modelled from the spec: whether the validation middleware accepts a
request (spec section 4.2), combining the Host-header check and the
origin check.  The middleware itself is not under `src/`. -/
def validateRequest (api : RokuApi) (req : HttpRequest) : Bool :=
  hostHeaderOk api.host_ip api.listen_port req.hostHeader &&
    isLocalRemote req.remote

/-- Processing of one request: the validation middleware runs first; on
failure it short-circuits with a 403 and no route handler runs (spec
section 4.2); on success the route table dispatches (an unmatched path
is aiohttp's 404). -/
def processRequest (api : RokuApi) (req : HttpRequest) : ApiResult :=
  if validateRequest api req then
    match dispatchRoute api req with
    | some (name, evs, resp) => ⟨some name, evs, resp⟩
    | none => ⟨none, [], ⟨404, "", none⟩⟩
  else
    ⟨none, [], ⟨403, "", none⟩⟩

/-- The server model `make_roku_api` builds (source lines 277-293):
identity derived from the resolved advertise pair, documents rendered
once at construction. -/
def mkRokuApi (a : MakeRokuApiArgs) (custom_apps : Option String) : RokuApi :=
  let p := resolveAdvertise a
  { host_ip := a.host_ip
    listen_port := a.listen_port
    usn := roku_usn_of p.1 p.2
    roku_info := rokuInfoFmt (roku_uuid_of p.1 p.2) (roku_usn_of p.1 p.2)
    device_info := rokuDeviceInfoFmt (roku_uuid_of p.1 p.2) (roku_usn_of p.1 p.2)
    custom_apps := custom_apps }

/-! ## Helper notions and lemmas -/

/-- Predicate `InOrderSubList s ns`: the strings of `ns` occur in `s` as disjoint
substrings, in the given order. -/
def InOrderSubList : List Char → List (List Char) → Prop
  | _, [] => True
  | s, n :: ns => ∃ u v, s = u ++ (n ++ v) ∧ InOrderSubList v ns

theorem inOrderSubList_prepend (u : List Char) {s : List Char}
    {ns : List (List Char)} (h : InOrderSubList s ns) :
    InOrderSubList (u ++ s) ns := by
  cases ns with
  | nil => exact trivial
  | cons n ns =>
    obtain ⟨a, b, hs, hb⟩ := h
    exact ⟨u ++ a, b, by rw [hs, List.append_assoc], hb⟩

theorem inOrderSubList_append_right {s : List Char} {ns : List (List Char)}
    (t : List Char) (h : InOrderSubList s ns) :
    InOrderSubList (s ++ t) ns := by
  induction ns generalizing s with
  | nil => exact trivial
  | cons n ns ih =>
    obtain ⟨a, b, hs, hb⟩ := h
    refine ⟨a, b ++ t, ?_, ih hb⟩
    rw [hs]
    simp [List.append_assoc]

theorem renderAppsBody_inOrder (l : List (String × String)) :
    InOrderSubList (renderAppsBody l).data (l.map (fun p => p.2.data)) := by
  induction l with
  | nil => exact trivial
  | cons p rest ih =>
    refine ⟨("<app id=\"" ++ p.1 ++ "\" version=\"1.0.0\">").data,
            "</app>\n".data ++ (renderAppsBody rest).data, ?_, ?_⟩
    · show (renderAppLine p ++ renderAppsBody rest).data = _
      simp only [renderAppLine, String.data_append, List.append_assoc]
    · exact inOrderSubList_prepend _ ih

theorem renderApps_inOrder (l : List (String × String)) :
    InOrderSubList (renderApps l).data (l.map (fun p => p.2.data)) := by
  have h1 := inOrderSubList_append_right ("</apps>".data) (renderAppsBody_inOrder l)
  have h2 := inOrderSubList_prepend ("<apps>\n".data) h1
  have : (renderApps l).data =
      "<apps>\n".data ++ ((renderAppsBody l).data ++ "</apps>".data) := by
    simp only [renderApps, String.data_append]
  rw [this]
  exact h2

theorem splitAppEntry_none_iff (e : String) :
    splitAppEntry e = none ↔ ':' ∉ e.data := by
  constructor
  · intro h hmem
    unfold splitAppEntry at h
    cases hd : e.data.dropWhile (fun c => c != ':') with
    | nil =>
      have := List.dropWhile_eq_nil_iff.mp hd ':' hmem
      simp at this
    | cons c cs => rw [hd] at h; exact absurd h (by simp)
  · intro h
    unfold splitAppEntry
    have hd : e.data.dropWhile (fun c => c != ':') = [] := by
      refine List.dropWhile_eq_nil_iff.mpr ?_
      intro c hc
      have : c ≠ ':' := fun he => h (he ▸ hc)
      simpa using this
    rw [hd]

theorem digit_foldl_ge (l : List Char) (acc : Nat) :
    acc ≤ l.foldl (fun a c => a * 10 + (c.toNat - 48)) acc := by
  induction l generalizing acc with
  | nil => exact Nat.le_refl acc
  | cons c cs ih =>
    calc acc ≤ acc * 10 + (c.toNat - 48) := by omega
    _ ≤ _ := ih _

theorem parseDigitRun_first (l : List Char) (k : Nat)
    (h : parseDigitRun l = some k) :
    ∃ c, l.head? = some c ∧ c.isDigit = true ∧ c.toNat - 48 ≤ k := by
  cases l with
  | nil => exact absurd h (by simp [parseDigitRun])
  | cons c cs =>
    by_cases hc : c.isDigit
    · have htw : (c :: cs).takeWhile (fun c => c.isDigit) =
          c :: cs.takeWhile (fun c => c.isDigit) := by
        simp [List.takeWhile_cons, hc]
      unfold parseDigitRun at h
      rw [htw] at h
      have hk : (c :: cs.takeWhile (fun c => c.isDigit)).foldl
          (fun a c => a * 10 + (c.toNat - 48)) 0 = k := by
        exact Option.some.inj h
      refine ⟨c, rfl, by simp [hc], ?_⟩
      rw [List.foldl_cons] at hk
      have := digit_foldl_ge (cs.takeWhile (fun c => c.isDigit))
        (0 * 10 + (c.toNat - 48))
      omega
    · exfalso
      unfold parseDigitRun at h
      rw [List.takeWhile_cons] at h
      simp [hc] at h

/-! ## Claim theorems -/

/-- Claim C1: every control-API request whose Host header differs from
the configured host address (with or without the listen-port suffix),
or whose origin is not a loopback or private-network address, receives
a 403 and no route handler runs; the validation precedes every route
(the request — hence every path and method — is arbitrary). -/
theorem middleware_rejects_with_403 (api : RokuApi) (req : HttpRequest)
    (h : (req.hostHeader ≠ api.host_ip ∧
          req.hostHeader ≠ api.host_ip ++ ":" ++ toString api.listen_port) ∨
         isLocalRemote req.remote = false) :
    processRequest api req = ⟨none, [], ⟨403, "", none⟩⟩ := by
  have hv : validateRequest api req = false := by
    unfold validateRequest hostHeaderOk
    rcases h with ⟨h1, h2⟩ | h3
    · rw [beq_eq_false_iff_ne.mpr h1, beq_eq_false_iff_ne.mpr h2]
      simp
    · rw [h3]
      simp
  simp [processRequest, hv]

/-- Server and request used to witness claim C1. -/
def c1Api : RokuApi := ⟨"127.0.0.1", 8060, "test-usn", "", "", none⟩

/-- A request with a spoofed Host header from a loopback origin. -/
def c1Req : HttpRequest := ⟨.get, [], "evil.example.com", "127.0.0.1"⟩

/-- Witness for claim C1 at a concrete spoofed-Host request. -/
theorem middleware_rejects_with_403_witness :
    ((c1Req.hostHeader ≠ c1Api.host_ip ∧
      c1Req.hostHeader ≠ c1Api.host_ip ++ ":" ++ toString c1Api.listen_port) ∨
     isLocalRemote c1Req.remote = false) ∧
    processRequest c1Api c1Req = ⟨none, [], ⟨403, "", none⟩⟩ :=
  ⟨Or.inl ⟨by decide, by decide⟩,
   middleware_rejects_with_403 c1Api c1Req (Or.inl ⟨by decide, by decide⟩)⟩

/-- Claim C2: for every `custom_apps` input with at least one valid
`id:name` entry, the built catalog exists, is the rendering of exactly
the valid entries, contains every valid entry's name in input order
(`InOrderSubList`), and omits every separator-less entry (such an entry
parses to `none` and is skipped by the `filterMap`, which continues
with the remaining entries). -/
theorem custom_apps_catalog_ordered (input : String)
    (h : parseCustomAppList input ≠ []) :
    ∃ c, build_custom_apps input = some c ∧
      c = renderApps (parseCustomAppList input) ∧
      InOrderSubList c.data
        ((parseCustomAppList input).map (fun p => p.2.data)) ∧
      parseCustomAppList input =
        (splitAppEntries input).filterMap splitAppEntry ∧
      (∀ e : String, splitAppEntry e = none ↔ ':' ∉ e.data) := by
  refine ⟨renderApps (parseCustomAppList input), ?_, rfl,
    renderApps_inOrder _, rfl, splitAppEntry_none_iff⟩
  unfold build_custom_apps
  rw [if_neg h]

/-- Input used to witness claim C2. -/
def c2Input : String := "1:App One,no_separator_entry,2:App Two"

/-- Witness for claim C2 at a concrete input with two valid entries and
one invalid entry. -/
theorem custom_apps_catalog_ordered_witness :
    parseCustomAppList c2Input ≠ [] ∧
    ∃ c, build_custom_apps c2Input = some c ∧
      c = renderApps (parseCustomAppList c2Input) ∧
      InOrderSubList c.data
        ((parseCustomAppList c2Input).map (fun p => p.2.data)) ∧
      parseCustomAppList c2Input =
        (splitAppEntries c2Input).filterMap splitAppEntry ∧
      (∀ e : String, splitAppEntry e = none ↔ ':' ∉ e.data) :=
  ⟨by decide, custom_apps_catalog_ordered c2Input (by decide)⟩

/-- Claim C3: for a matching discovery query carrying a well-formed
`MX` header of value `k`, the reply is scheduled with a delay drawn
from an inclusive integer range contained in `[0, min k SSDP_MAX_DELAY]`
(the source draws `randrange(0, b + 1, 1)`, i.e. uniformly from
`[0, b]`, for the computed bound `b`). -/
theorem mx_reply_delay_bounded (data : String) (k : Nat)
    (hq : isMatchingQuery data = true)
    (hmx : mxHeaderValue data = some k) :
    ∃ b, datagramReceived data = DatagramOutcome.scheduled b ∧
      Finset.Icc 0 b ⊆ Finset.Icc 0 (min k SSDP_MAX_DELAY) := by
  unfold mxHeaderValue at hmx
  split at hmx
  · exact absurd hmx (by simp)
  · next i heq =>
    split at hmx
    · next hsp =>
      obtain ⟨c, hhead, hdig, hle⟩ := parseDigitRun_first _ _ hmx
      have hidx : data.data[i + 4]? = some c := by
        rw [← List.head?_drop]
        exact hhead
      refine ⟨(c.toNat - 48) % (SSDP_MAX_DELAY + 1), ?_, ?_⟩
      · simp [datagramReceived, hq, heq, hidx, pyIntOfChar, hdig]
      · apply Finset.Icc_subset_Icc (Nat.le_refl 0)
        show (c.toNat - 48) % (SSDP_MAX_DELAY + 1) ≤ min k SSDP_MAX_DELAY
        rcases Nat.le_total k SSDP_MAX_DELAY with hk | hk
        · rw [Nat.min_eq_left hk]
          simp only [SSDP_MAX_DELAY] at hk ⊢
          omega
        · rw [Nat.min_eq_right hk]
          simp only [SSDP_MAX_DELAY]
          omega
    · exact absurd hmx (by simp)

/-- A well-formed discovery query with `MX: 3`, used to witness
claim C3. -/
def c3Query : String :=
  "M-SEARCH * HTTP/1.1\r\nHOST: 239.255.255.250:1900\r\n" ++
  "MAN: \"ssdp:discover\"\r\nMX: 3\r\nST: roku:ecp\r\n\r\n"

/-- Witness for claim C3 at a concrete query with `MX: 3`. -/
theorem mx_reply_delay_bounded_witness :
    isMatchingQuery c3Query = true ∧ mxHeaderValue c3Query = some 3 ∧
    ∃ b, datagramReceived c3Query = DatagramOutcome.scheduled b ∧
      Finset.Icc 0 b ⊆ Finset.Icc 0 (min 3 SSDP_MAX_DELAY) :=
  ⟨by decide, by decide,
   mx_reply_delay_bounded c3Query 3 (by decide) (by decide)⟩

/-- A matching discovery query whose `MX` value is not parsable as an
integer (failing input of claim C4). -/
def c4MalformedQuery : String :=
  "M-SEARCH * HTTP/1.1\r\nHOST: 239.255.255.250:1900\r\n" ++
  "MAN: \"ssdp:discover\"\r\nMX: x\r\nST: roku:ecp\r\n\r\n"

/-- Claim C4 fails on the code: on a matching query whose `MX` value is
not a digit, `datagram_received` raises (`int(data[mx_value + 4])`
raises `ValueError`) instead of falling back to the maximum window —
no reply is scheduled.  The repository's own tests assert that such a
datagram still schedules a reply. -/
theorem malformed_mx_datagram_raises :
    datagramReceived c4MalformedQuery = DatagramOutcome.raised ∧
    isMatchingQuery c4MalformedQuery = true := by
  constructor <;> decide

/-- Claim C5 fails on the code: the first NOTIFY is not sent at startup.
`connection_made` schedules `multicast_notify(MUTLICAST_TTL)`, which
sleeps a full interval before its first send, so for a connection made
at time 0 the first send happens at time 300, not 0. -/
theorem notify_first_send_not_at_startup :
    notifySendTime 0 0 ≠ 0 ∧ notifySendTime 0 0 = MUTLICAST_TTL := by
  constructor <;> decide

/-- Claim C5 (amended): the NOTIFY self-announcement is first sent one
full announcement interval (`MUTLICAST_TTL` = 300 s) after entering the
listening state, and thereafter repeatedly at that fixed interval. -/
theorem notify_schedule_fixed_interval (t0 n : Nat) :
    notifySendTime t0 0 = t0 + MUTLICAST_TTL ∧
    notifySendTime t0 (n + 1) = notifySendTime t0 n + MUTLICAST_TTL ∧
    notifyFirstSendDelay = MUTLICAST_TTL :=
  ⟨rfl, rfl, rfl⟩

/-- Claim C6: after `close()` no previously scheduled reply or
announcement is sent when it fires (the fire-time guard finds no
transport and returns, sending nothing and raising nothing — the model
is total), a deferred send that fires while the transport is merely
closing is likewise dropped, and a second `close()` is a no-op. -/
theorem close_silences_deferred_sends (st : DiscoveryProtoState)
    (data : String) (addr : String × Nat) :
    multicastReplyFire (closeProto st) data addr = none ∧
    multicastNotifyFire (closeProto st) = none ∧
    closeProto (closeProto st) = closeProto st ∧
    multicastReplyFire { st with transport := some true } data addr = none ∧
    multicastNotifyFire { st with transport := some true } = none :=
  ⟨rfl, rfl, rfl, rfl, rfl⟩

/-- Claim C7: the derived `(usn, device_uuid)` identity is a pure
function of the resolved `(advertise_ip, advertise_port)` pair alone:
any two `make_roku_api` argument sets resolving to the same pair —
whether in one run or across process restarts, since nothing but the
pair enters the derivation — yield identical identities. -/
theorem identity_depends_only_on_advertise_pair
    (a₁ a₂ : MakeRokuApiArgs)
    (h : resolveAdvertise a₁ = resolveAdvertise a₂) :
    deriveIdentity a₁ = deriveIdentity a₂ := by
  unfold deriveIdentity
  rw [h]

/-- Witness for claim C7: two different argument sets (different
`host_ip`/`listen_port`) resolving to the same advertise pair. -/
theorem identity_depends_only_on_advertise_pair_witness :
    resolveAdvertise ⟨"10.0.0.9", 999, some "1.2.3.4", some 8060⟩ =
      resolveAdvertise ⟨"1.2.3.4", 8060, none, none⟩ ∧
    deriveIdentity ⟨"10.0.0.9", 999, some "1.2.3.4", some 8060⟩ =
      deriveIdentity ⟨"1.2.3.4", 8060, none, none⟩ :=
  ⟨by decide,
   identity_depends_only_on_advertise_pair
     ⟨"10.0.0.9", 999, some "1.2.3.4", some 8060⟩
     ⟨"1.2.3.4", 8060, none, none⟩ (by decide)⟩

/-- Claim C8: an accepted `POST /keypress/Home` (Host `127.0.0.1:8060`,
loopback origin) runs the keypress handler, which invokes the
`on_keypress` callback exactly once with the device usn and the key
`"Home"` from the path, and returns an empty 200; likewise every
command route forwards its path segment to the corresponding handler
callback. -/
theorem command_routes_forward_path_segment (usn key appId : String) :
    processRequest ⟨"127.0.0.1", 8060, usn, "", "", none⟩
        ⟨.post, ["keypress", "Home"], "127.0.0.1:8060", "127.0.0.1"⟩ =
      ⟨some "roku_keypress_handler", [.keypress usn "Home"], ⟨200, "", none⟩⟩ ∧
    processRequest ⟨"127.0.0.1", 8060, usn, "", "", none⟩
        ⟨.post, ["keypress", key], "127.0.0.1:8060", "127.0.0.1"⟩ =
      ⟨some "roku_keypress_handler", [.keypress usn key], ⟨200, "", none⟩⟩ ∧
    processRequest ⟨"127.0.0.1", 8060, usn, "", "", none⟩
        ⟨.post, ["keydown", key], "127.0.0.1:8060", "127.0.0.1"⟩ =
      ⟨some "roku_keydown_handler", [.keydown usn key], ⟨200, "", none⟩⟩ ∧
    processRequest ⟨"127.0.0.1", 8060, usn, "", "", none⟩
        ⟨.post, ["keyup", key], "127.0.0.1:8060", "127.0.0.1"⟩ =
      ⟨some "roku_keyup_handler", [.keyup usn key], ⟨200, "", none⟩⟩ ∧
    processRequest ⟨"127.0.0.1", 8060, usn, "", "", none⟩
        ⟨.post, ["launch", appId], "127.0.0.1:8060", "127.0.0.1"⟩ =
      ⟨some "roku_launch_handler", [.launch usn appId], ⟨200, "", none⟩⟩ := by
  have hh : hostHeaderOk "127.0.0.1" 8060 "127.0.0.1:8060" = true := rfl
  have hl : isLocalRemote "127.0.0.1" = true := rfl
  refine ⟨?_, ?_, ?_, ?_, ?_⟩ <;>
    simp [processRequest, validateRequest, hh, hl, dispatchRoute]

/-- Claim C9 fails on the code: with `bind_multicast` true (on a
non-Windows platform) the discovery socket is bound to the multicast
group address `239.255.255.250`, which is not the wildcard address. -/
theorem bind_multicast_target_not_wildcard :
    discoveryLocalAddr true "posix" "192.168.1.10" =
      ("239.255.255.250", 1900) ∧
    MULTICAST_GROUP ≠ "0.0.0.0" ∧ MULTICAST_GROUP ≠ "" := by
  refine ⟨rfl, by decide, by decide⟩

/-- Claim C9 (amended): when `bind_multicast` is true and the platform
is not Windows (`os.name ≠ "nt"`), the discovery endpoint is bound to
the multicast group address on the fixed discovery port 1900; when
`bind_multicast` is false — or on Windows regardless of
`bind_multicast` — it is bound to the specific host address on that
port. -/
theorem discovery_bind_target_choice (hip os : String) (bm : Bool)
    (hos : os ≠ "nt") :
    discoveryLocalAddr true os hip = (MULTICAST_GROUP, MULTICAST_PORT) ∧
    discoveryLocalAddr false os hip = (hip, MULTICAST_PORT) ∧
    discoveryLocalAddr bm "nt" hip = (hip, MULTICAST_PORT) := by
  unfold discoveryLocalAddr chooseMulticastBindIp
  refine ⟨?_, by simp, by simp⟩
  rw [beq_eq_false_iff_ne.mpr hos]
  simp

/-- Witness for claim C9 (amended) at concrete platform and host
values. -/
theorem discovery_bind_target_choice_witness :
    discoveryLocalAddr true "posix" "10.0.0.5" =
      (MULTICAST_GROUP, MULTICAST_PORT) ∧
    discoveryLocalAddr false "posix" "10.0.0.5" = ("10.0.0.5", MULTICAST_PORT) ∧
    discoveryLocalAddr true "nt" "10.0.0.5" = ("10.0.0.5", MULTICAST_PORT) :=
  discovery_bind_target_choice "10.0.0.5" "posix" true (by decide)

/-- Claim C10: the unicast reply payload is the single byte string
rendered at construction time from `(advertise_ip, advertise_port,
usn)` and the fixed TTL: the payload a firing reply task sends does not
depend on the query datagram or the requester address (so any two
queries — matching ones included — receive byte-identical replies), the
constructed payload equals the response template applied to those
construction inputs, and it is independent of the remaining constructor
arguments. -/
theorem reply_payload_fixed_at_construction (host_ip : String)
    (listen_port : Nat) (aip : String) (ap : Nat) (usn : String)
    (t : Option Bool) (d₁ d₂ : String) (a₁ a₂ : String × Nat) :
    (multicastReplyFire
        { protocolInit host_ip listen_port aip ap usn with transport := t }
        d₁ a₁).map Prod.fst =
      (multicastReplyFire
        { protocolInit host_ip listen_port aip ap usn with transport := t }
        d₂ a₂).map Prod.fst ∧
    (protocolInit host_ip listen_port aip ap usn).upnp_response =
      multicastResponseFmt MUTLICAST_TTL aip ap usn ∧
    ∀ h₂ l₂, (protocolInit h₂ l₂ aip ap usn).upnp_response =
      (protocolInit host_ip listen_port aip ap usn).upnp_response := by
  refine ⟨?_, rfl, fun h₂ l₂ => rfl⟩
  rcases t with _ | b
  · rfl
  · cases b <;> rfl

end EmulatedRoku
